import Mathlib

/-!
Verification of the durable job queue / retry engine of the order-import
middleware, as a shallow embedding of the TypeScript source.

Embedded modules:
* `src/services/jobsService.ts` — `isTransientError`, `getDueJobs`,
  `runJobWithRetry`, `ensureJob` and the three `create*JobIfNotExists` facades;
* `src/services/orderSyncService.ts` — `syncOrderById`, `invoiceOrderById`;
* `src/services/channelRuleService.ts` — channel rules (at interface level).

Modelling conventions:
* machine timestamps (`Date`, `db.fn.now()`) are abstract `Nat` instants;
  the bookkeeping columns `created_at` / `updated_at`, which no queue decision
  reads, are omitted from the row models;
* a job payload is its `order_id` (the code stores `{ order_id }` as JSON and
  queries it back with `JSON_EXTRACT`; the JSON round-trip is not modelled);
* JavaScript exception values are modelled by `JsError`: either a plain
  (non-axios) exception or an axios error carrying an optional HTTP status,
  an optional truthy `response.data.message`, and an `err.message`;
* remote (Magento) calls and the channel-rule lookup are external
  collaborators; their outcomes are supplied by an `Env` record of
  `Except`-valued results, and every performed remote call is appended to a
  call log so that "performs zero remote calls" is expressible.
-/

/-- Job lifecycle states, from the `JobRow` interface in `jobsService.ts`
(the `COMPLETED` member is declared there but never produced). -/
inductive Status where
  | PENDING
  | RUNNING
  | COMPLETED
  | FAILED
  | RETRY
  | DONE
deriving DecidableEq, Repr

/-- Row of the `jobs` table (`JobRow` in `jobsService.ts`), minus the
bookkeeping timestamps. `payload` is the embedded `order_id`. -/
structure JobRow where
  id : Nat
  type : String
  payload : Nat
  status : Status
  attempts : Nat
  max_attempts : Nat
  last_error : Option String
  next_run_at : Option Nat
deriving DecidableEq, Repr

/-- JavaScript exception values as seen by `isTransientError`:
`plain m` is any non-axios exception whose `.message` is `m`;
`axiosErr status dataMessage message` is an axios error, where `dataMessage`
is `response.data.message` when `response.data` is an object with a truthy
`message`, and `message` is `err.message`. -/
inductive JsError where
  | plain (message : String)
  | axiosErr (status : Option Nat) (dataMessage : Option String) (message : String)
deriving DecidableEq, Repr

/-- Boolean test that `pat` occurs as a leading segment of `s`
(character-list form of JS `String.prototype.startsWith`). -/
def listStartsWith : List Char → List Char → Bool
  | _, [] => true
  | [], _ :: _ => false
  | a :: s, b :: p => a == b && listStartsWith s p

/-- Boolean test that `pat` occurs contiguously inside `s`
(character-list form of JS `String.prototype.includes`). -/
def listHasSeq : List Char → List Char → Bool
  | [], p => p.isEmpty
  | a :: s, p => listStartsWith (a :: s) p || listHasSeq s p

/-- JS `haystack.includes(needle)` on Lean strings. -/
def strHas (s pat : String) : Bool := listHasSeq s.data pat.data

/-- JS `String.prototype.toLowerCase` (ASCII range, which covers every
phrase the classifier compares against). -/
def lowerStr (s : String) : String := String.mk (s.data.map Char.toLower)

/-- JS `a || b` on strings: the empty string is the only falsy string. -/
def jsOr (a b : String) : String := if a == "" then b else a

/-- The `knownRetriables` phrase list from `isTransientError`
(`jobsService.ts`): 400-status errors whose message contains one of these
are storage-contention conditions surfaced by Magento as client errors. -/
def knownRetriables : List String :=
  ["deadlock found",
   "serialization failure",
   "lock wait timeout",
   "could not save source item",
   "the shipment couldn\x27t be saved"]

/-- Function `isTransientError` from `jobsService.ts`. Non-axios errors are rejected
up front; axios errors without a status (no response received) are
transient; 408/429/5xx are transient; a 400 is transient only when the
lowercased message contains a known contention phrase; all else permanent. -/
def isTransientError : JsError → Bool
  | .plain _ => false
  | .axiosErr status dataMessage errMessage =>
    let messageFromData := match dataMessage with
      | some m => m
      | none => ""
    let message := lowerStr (jsOr (jsOr messageFromData errMessage) "")
    match status with
    | none => true
    | some s =>
      if s == 408 || s == 429 || s ≥ 500 then true
      else if s == 400 then
        knownRetriables.any (fun phrase => strHas message phrase)
      else false

/-- Eligibility predicate of the claim query in `getDueJobs`
(`jobsService.ts`): status `PENDING` or `RETRY`, and `next_run_at` null or
not after `now`. -/
def isDue (now : Nat) (j : JobRow) : Bool :=
  (j.status == .PENDING || j.status == .RETRY)
  && (match j.next_run_at with
      | none => true
      | some t => t ≤ now)

/-- The per-row effect of a claim in `getDueJobs`: status set to `RUNNING`
and `attempts` incremented by one. -/
def claimJob (j : JobRow) : JobRow :=
  { j with status := .RUNNING, attempts := j.attempts + 1 }

/-- Function `getDueJobs(limit)` from `jobsService.ts`, as a pure transformation of
the `jobs` table at instant `now`. Selects the first `limit` due rows in
ascending-id order, marks them `RUNNING` with `attempts + 1`, and returns
`(post-update snapshot of the selected rows, updated table)`. The
surrounding transaction and `FOR UPDATE SKIP LOCKED` are concurrency
devices with no sequential content. -/
def getDueJobs (tbl : List JobRow) (now : Nat) (limit : Nat) :
    List JobRow × List JobRow :=
  let candidates :=
    (List.insertionSort (fun a b => a.id ≤ b.id) (tbl.filter (isDue now))).take limit
  let ids := candidates.map (fun r => r.id)
  let updated := tbl.map (fun j => if ids.contains j.id then claimJob j else j)
  (candidates.map claimJob, updated)

/-- Outcome of one handler invocation: normal return or a thrown exception. -/
inductive HandlerResult where
  | ok
  | err (e : JsError)
deriving DecidableEq, Repr

/-- The `jobs`-table write performed by `runJobWithRetry` after the handler
finishes: mark done, mark permanently failed, or schedule a retry after
`delaySeconds`. -/
inductive JobUpdate where
  | done
  | failed (message : String)
  | retry (message : String) (delaySeconds : Nat)
deriving DecidableEq, Repr

/-- Message extraction `err?.message || String(err)` as used by `runJobWithRetry`; every
modelled exception carries its `.message`. -/
def errMessage : JsError → String
  | .plain m => m
  | .axiosErr _ _ m => m

/-- The exponential backoff of `runJobWithRetry`:
`delaySeconds = 30 * Math.pow(2, attempt - 1)` (30s, 60s, 120s, ...). -/
def backoffDelay (attempt : Nat) : Nat := 30 * 2 ^ (attempt - 1)

/-- Function `runJobWithRetry(job, handler)` from `jobsService.ts`, given the
handler's outcome. `job` is the claimed snapshot (attempts already
incremented). Note `const maxAttempts = job.max_attempts || 5`: a falsy
(zero) `max_attempts` is replaced by the default 5. -/
def runJobWithRetry (job : JobRow) (result : HandlerResult) : JobUpdate :=
  match result with
  | .ok => .done
  | .err e =>
    let message := errMessage e
    let transient := isTransientError e
    let maxAttempts := if job.max_attempts == 0 then 5 else job.max_attempts
    if !transient || job.attempts ≥ maxAttempts then .failed message
    else .retry message (backoffDelay job.attempts)

/-- Effect of a `JobUpdate` on the stored row, at instant `now`
(`DATE_ADD(NOW(), INTERVAL delay SECOND)` becomes `now + delay`). -/
def applyUpdate (now : Nat) (r : JobRow) : JobUpdate → JobRow
  | .done => { r with status := .DONE, last_error := none }
  | .failed m => { r with status := .FAILED, last_error := some m }
  | .retry m d =>
    { r with status := .RETRY, last_error := some m, next_run_at := some (now + d) }

/-- The lookup inside `ensureJob`: first row matching the `(type, payload
order_id)` pair. -/
def findJob (tbl : List JobRow) (ty : String) (orderId : Nat) : Option JobRow :=
  tbl.find? (fun j => j.type == ty && j.payload == orderId)

/-- The reset applied by `ensureJob` to a terminal (`FAILED`/`DONE`) row. -/
def resetJob (j : JobRow) : JobRow :=
  { j with status := .PENDING, attempts := 0, last_error := none, next_run_at := none }

/-- The fresh row inserted by `ensureJob` when no matching job exists; the
store assigns id `nid`, and the unspecified columns default to null. -/
def freshJob (ty : String) (orderId : Nat) (nid : Nat) : JobRow :=
  { id := nid, type := ty, payload := orderId, status := .PENDING,
    attempts := 0, max_attempts := 5, last_error := none, next_run_at := none }

/-- Function `ensureJob(type, orderId)` from `jobsService.ts`: reset an existing
terminal row, leave a non-terminal row alone, or insert a fresh `PENDING`
row (`nid` models the store-assigned auto-increment id). -/
def ensureJob (tbl : List JobRow) (ty : String) (orderId : Nat) (nid : Nat) :
    List JobRow :=
  match findJob tbl ty orderId with
  | some existing =>
    if existing.status == .FAILED || existing.status == .DONE then
      tbl.map (fun j => if j.id == existing.id then resetJob j else j)
    else tbl
  | none => tbl ++ [freshJob ty orderId nid]

/-- Facade `createSyncJobIfNotExists`. -/
def createSyncJobIfNotExists (tbl : List JobRow) (orderId nid : Nat) : List JobRow :=
  ensureJob tbl "SYNC_ORDER_TO_MAGENTO" orderId nid

/-- Facade `createInvoiceJobIfNotExists`. -/
def createInvoiceJobIfNotExists (tbl : List JobRow) (orderId nid : Nat) : List JobRow :=
  ensureJob tbl "INVOICE_MAGENTO_ORDER" orderId nid

/-- Facade `createShipJobIfNotExists`. -/
def createShipJobIfNotExists (tbl : List JobRow) (orderId nid : Nat) : List JobRow :=
  ensureJob tbl "SHIP_MAGENTO_ORDER" orderId nid

/-- Running the claimed batch: for each claimed snapshot, the job row is
updated per `runJobWithRetry` on the handler's outcome (the per-job
`db('jobs').where({id}).update(...)` writes of `jobsService.ts`). -/
def processClaimed (now : Nat) (handlerResult : JobRow → HandlerResult)
    (tbl : List JobRow) (claimed : List JobRow) : List JobRow :=
  claimed.foldl
    (fun t j =>
      t.map (fun r =>
        if r.id == j.id then applyUpdate now r (runJobWithRetry j (handlerResult j))
        else r))
    tbl

/-- One iteration of the worker loop (`ordersWorker.ts`): claim a batch of
due jobs, then run each through `runJobWithRetry`. -/
def workerCycle (now : Nat) (limit : Nat)
    (handlerResult : JobRow → HandlerResult) (tbl : List JobRow) : List JobRow :=
  processClaimed now handlerResult (getDueJobs tbl now limit).2
    (getDueJobs tbl now limit).1

/-- Row of the `orders` table (`OrderRow` in `src/types/order.ts`),
restricted to the fields the sync/invoice handlers read or write; columns
that only feed log lines or the Magento comment text are omitted. -/
structure OrderRow where
  id : Nat
  order_channel : String
  email : Option String
  created_date : Nat
  magento_order_id : Option Nat
  magento_increment_id : Option String
  status : String
  invoiced_at : Option Nat
  shipped_at : Option Nat
  magento_invoice_id : Option Nat
  magento_shipment_id : Option Nat
deriving DecidableEq, Repr

/-- Row of the `order_items` table, restricted to what `syncOrderById`
uses. -/
structure OrderItemRow where
  id : Nat
  order_id : Nat
  sku : String
  qty_ordered : Nat
deriving DecidableEq, Repr

/-- A channel rule: the two booleans returned by `resolveChannelRule`. -/
structure ChannelRule where
  autoInvoice : Bool
  autoShip : Bool
deriving DecidableEq, Repr

/-- The static `CHANNEL_RULES` table of `config/channelRules.ts`. -/
def CHANNEL_RULES : List (String × ChannelRule) :=
  [("Admin Bulk Digitisation", { autoInvoice := true, autoShip := true }),
   ("Order on Behalf", { autoInvoice := true, autoShip := false })]

/-- Constant `DEFAULT_CHANNEL_RULE` of `config/channelRules.ts`. -/
def DEFAULT_CHANNEL_RULE : ChannelRule := { autoInvoice := true, autoShip := false }

/-- Persistent state threaded through the handlers: the business tables,
the jobs table with its auto-increment counter, and a log of the remote
(Magento) calls performed so far. -/
structure World where
  orders : List OrderRow
  orderItems : List OrderItemRow
  jobs : List JobRow
  nextJobId : Nat
  calls : List String
deriving DecidableEq, Repr

/-- Result of running a handler fragment: normal value or a thrown
exception, in both cases with the state as left behind (effects performed
before a throw persist, as with real I/O). -/
inductive MRes (α : Type) where
  | ok : α → World → MRes α
  | err : JsError → World → MRes α

/-- State-and-exception monad the handlers are written in. -/
def M (α : Type) : Type := World → MRes α

/-- Monadic `pure` for `M`. -/
def mPure {α : Type} (a : α) : M α := fun w => .ok a w

/-- Monadic `bind` for `M`: on an exception the continuation is skipped and the
state at the throw point is kept. -/
def mBind {α β : Type} (x : M α) (f : α → M β) : M β := fun w =>
  match x w with
  | .ok a w2 => f a w2
  | .err e w2 => .err e w2

instance monadM : Monad M where
  pure := mPure
  bind := mBind

/-- JS `throw`. -/
def mThrow {α : Type} (e : JsError) : M α := fun w => .err e w

/-- JS `try/catch`. -/
def mTry {α : Type} (x : M α) (h : JsError → M α) : M α := fun w =>
  match x w with
  | .ok a w2 => .ok a w2
  | .err e w2 => h e w2

/-- A remote (Magento) call named `name` whose outcome the environment
fixes: the call is logged as performed, then either returns or throws. -/
def mcall {α : Type} (name : String) (r : Except JsError α) : M α := fun w =>
  let w2 := { w with calls := w.calls ++ [name] }
  match r with
  | .ok a => .ok a w2
  | .error e => .err e w2

/-- A storage-layer operation whose outcome the environment fixes (knex
calls can throw on infrastructure failure); not a remote call, so not
logged. -/
def liftE {α : Type} (r : Except JsError α) : M α := fun w =>
  match r with
  | .ok a => .ok a w
  | .error e => .err e w

/-- Read `db('orders').where({ id }).first()`. -/
def readOrder (oid : Nat) : M (Option OrderRow) := fun w =>
  .ok (w.orders.find? (fun o => o.id == oid)) w

/-- Read `db('order_items').where({ order_id })`. -/
def readItems (oid : Nat) : M (List OrderItemRow) := fun w =>
  .ok (w.orderItems.filter (fun it => it.order_id == oid)) w

/-- Write `db('orders').where({ id }).update(...)`: apply `f` to the matching
row. -/
def updateOrder (oid : Nat) (f : OrderRow → OrderRow) : M Unit := fun w =>
  .ok () { w with orders := w.orders.map (fun o => if o.id == oid then f o else o) }

/-- The `create*JobIfNotExists` facades as a state action: `ensureJob` on
the jobs table, consuming the auto-increment counter. -/
def ensureJobM (ty : String) (oid : Nat) : M Unit := fun w =>
  .ok () { w with jobs := ensureJob w.jobs ty oid w.nextJobId,
                  nextJobId := w.nextJobId + 1 }

/-- Outcomes of the external collaborators (remote Magento operations, the
channel-policy resolver, and the two storage operations inside the
post-invoice scheduling block, which may themselves throw). -/
structure Env where
  createGuestCart : Except JsError String
  addItemToGuestCart : String → String → Nat → Except JsError Unit
  setGuestCartAddresses : Except JsError Unit
  setPaymentMethodCOD : Except JsError Unit
  placeGuestOrder : Except JsError Nat
  getOrderById : Except JsError (Option String)
  attachCustomerAndBackdate : Except JsError Unit
  backdateOrder : Except JsError Unit
  addOrderComment : Except JsError Unit
  createInvoice : Except JsError Nat
  backdateInvoice : Except JsError Unit
  createShipment : Except JsError Nat
  backdateShipment : Except JsError Unit
  resolveChannelRule : Except JsError ChannelRule
  refetchOrderOk : Except JsError Unit
  enqueueShipOk : Except JsError Unit

/-- The item-adding loop of `syncOrderById`; the bounded-concurrency worker
pool drains the queue in order, so its sequential effect is one
`addItemToGuestCart` per item in list order. -/
def addItemsToCart (env : Env) (cartId : String) : List OrderItemRow → M Unit
  | [] => pure ()
  | it :: rest => do
    let _ ← mcall "addItemToGuestCart" (env.addItemToGuestCart cartId it.sku it.qty_ordered)
    addItemsToCart env cartId rest

/-- Handler `syncOrderById` from `orderSyncService.ts`. The outer try/catch there
logs and rethrows, leaving the semantics unchanged, so it is not
reproduced. The `autoShip && !autoInvoice` misconfiguration branch only
writes a log line. -/
def syncOrderById (env : Env) (orderId : Nat) : M Unit := do
  let ord? ← readOrder orderId
  match ord? with
  | none => mThrow (JsError.plain ("Order " ++ toString orderId ++ " not found"))
  | some order => do
    let items ← readItems orderId
    if (order.magento_order_id).isSome then
      pure ()
    else do
      let cartId ← mcall "createGuestCart" env.createGuestCart
      addItemsToCart env cartId items
      let _ ← mcall "setGuestCartAddresses" env.setGuestCartAddresses
      let _ ← mcall "setPaymentMethodCOD" env.setPaymentMethodCOD
      let magentoOrderId ← mcall "placeGuestOrder" env.placeGuestOrder
      let magentoIncrementId ←
        mTry (mcall "getOrderById" env.getOrderById) (fun _ => mPure none)
      updateOrder orderId (fun o =>
        { o with status := "SYNCED",
                 magento_order_id := some magentoOrderId,
                 magento_increment_id := magentoIncrementId })
      mTry
        (if order.email.isSome then
          mcall "attachCustomerAndBackdate" env.attachCustomerAndBackdate
        else
          mcall "backdateOrder" env.backdateOrder)
        (fun _ => mPure ())
      mTry (mcall "addOrderComment" env.addOrderComment) (fun _ => mPure ())
      let channelRule ← liftE env.resolveChannelRule
      if channelRule.autoInvoice then
        ensureJobM "INVOICE_MAGENTO_ORDER" order.id
      else
        pure ()

/-- Handler `invoiceOrderById` from `orderSyncService.ts`; `now` models
`db.fn.now()` at the `markOrderInvoiced` write. -/
def invoiceOrderById (env : Env) (orderId : Nat) (now : Nat) : M Unit := do
  let ord? ← readOrder orderId
  match ord? with
  | none => mThrow (JsError.plain ("Order " ++ toString orderId ++ " not found"))
  | some order => do
    match order.magento_order_id with
    | none => mThrow (JsError.plain "Order has no magento_order_id")
    | some _magentoOrderId => do
      if (order.invoiced_at).isSome then
        pure ()
      else do
        let invoiceId ← mcall "createInvoice" env.createInvoice
        mTry (mcall "backdateInvoice" env.backdateInvoice) (fun _ => mPure ())
        updateOrder orderId (fun o =>
          { o with magento_invoice_id := some invoiceId, invoiced_at := some now })
        mTry
          (do
            liftE env.refetchOrderOk
            let refreshed? ← readOrder orderId
            match refreshed? with
            | none => pure ()
            | some _refreshed => do
              let rule ← liftE env.resolveChannelRule
              if rule.autoShip then do
                liftE env.enqueueShipOk
                ensureJobM "SHIP_MAGENTO_ORDER" orderId
              else
                pure ())
          (fun _ => mPure ())

/-- Handler `shipOrderById` from `orderSyncService.ts`; `now` models
`db.fn.now()` at the `markOrderShipped` write. -/
def shipOrderById (env : Env) (orderId : Nat) (now : Nat) : M Unit := do
  let ord? ← readOrder orderId
  match ord? with
  | none => mThrow (JsError.plain ("Order " ++ toString orderId ++ " not found"))
  | some order => do
    match order.magento_order_id with
    | none => mThrow (JsError.plain "Order has no magento_order_id")
    | some _magentoOrderId => do
      if (order.shipped_at).isSome then
        pure ()
      else do
        let shipmentId ← mcall "createShipment" env.createShipment
        mTry (mcall "backdateShipment" env.backdateShipment) (fun _ => mPure ())
        updateOrder orderId (fun o =>
          { o with magento_shipment_id := some shipmentId, shipped_at := some now })

/-! ## String-containment reflection for the classifier -/

theorem listStartsWith_iff : ∀ (s p : List Char), listStartsWith s p = true ↔ p <+: s
  | s, [] => by simp [listStartsWith]
  | [], _ :: _ => by
    simp [listStartsWith]
  | a :: s, b :: p => by
    rw [listStartsWith, Bool.and_eq_true, beq_iff_eq, List.cons_prefix_cons,
      listStartsWith_iff s p]
    exact ⟨fun h => ⟨h.1.symm, h.2⟩, fun h => ⟨h.1.symm, h.2⟩⟩

theorem listHasSeq_iff : ∀ (s p : List Char), listHasSeq s p = true ↔ p <:+: s
  | [], p => by
    simp [listHasSeq, List.isEmpty_iff, List.infix_nil]
  | a :: s, p => by
    rw [listHasSeq]
    simp [Bool.or_eq_true, listStartsWith_iff, listHasSeq_iff s p,
      List.infix_cons_iff]

theorem strHas_iff (s pat : String) : strHas s pat = true ↔ pat.data <:+: s.data :=
  listHasSeq_iff s.data pat.data

theorem jsOr_empty_left (m : String) : jsOr "" m = m := rfl

theorem jsOr_empty_right (m : String) : jsOr m "" = m := by
  unfold jsOr
  by_cases h : m == ""
  · simp only [h, if_pos rfl]
    exact (eq_of_beq h).symm
  · simp [h]

theorem lowerStr_data (s : String) : (lowerStr s).data = s.data.map Char.toLower := rfl

/-- Containment survives JS `toLowerCase` when the pattern has no upper-case
characters. -/
theorem strHas_lower (s pat : String)
    (hfix : pat.data.map Char.toLower = pat.data)
    (h : strHas s pat = true) : strHas (lowerStr s) pat = true := by
  rw [strHas_iff] at h ⊢
  rw [lowerStr_data, ← hfix]
  exact List.IsInfix.map Char.toLower h

/-- Claim C3: `isTransientError` realises the spec classification table:
status 503 and 429 are transient regardless of message; 404 is permanent;
a 400 whose message contains "deadlock found when trying to get lock" is
transient; a 400 whose lowercased message matches no known contention
phrase is permanent; an axios error with no response status is transient. -/
theorem isTransientError_table :
    (∀ (dm : Option String) (msg : String),
        isTransientError (.axiosErr (some 503) dm msg) = true)
    ∧ (∀ (dm : Option String) (msg : String),
        isTransientError (.axiosErr (some 429) dm msg) = true)
    ∧ (∀ (dm : Option String) (msg : String),
        isTransientError (.axiosErr (some 404) dm msg) = false)
    ∧ (∀ msg : String,
        strHas msg "deadlock found when trying to get lock" = true →
        isTransientError (.axiosErr (some 400) none msg) = true)
    ∧ (∀ msg : String,
        (∀ p ∈ knownRetriables, strHas (lowerStr msg) p = false) →
        isTransientError (.axiosErr (some 400) none msg) = false)
    ∧ (∀ (dm : Option String) (msg : String),
        isTransientError (.axiosErr none dm msg) = true) := by
  refine ⟨fun dm msg => by simp [isTransientError],
          fun dm msg => by simp [isTransientError],
          fun dm msg => by simp [isTransientError],
          fun msg h => ?_,
          fun msg h => ?_,
          fun dm msg => by simp [isTransientError]⟩
  · have h1 : strHas msg "deadlock found" = true := by
      rw [strHas_iff] at h ⊢
      have hsub : ("deadlock found" : String).data <:+:
          ("deadlock found when trying to get lock" : String).data := by
        rw [← strHas_iff]
        rfl
      exact hsub.trans h
    have h2 : strHas (lowerStr msg) "deadlock found" = true :=
      strHas_lower msg "deadlock found" (by decide) h1
    simp [isTransientError, jsOr_empty_left, jsOr_empty_right, knownRetriables, h2]
  · simp [isTransientError, jsOr_empty_left, jsOr_empty_right]
    exact h

/-- Witness for C3 at concrete inputs: the two hypothesis-bearing rows of
the table are discharged on a real deadlock message and on an unrelated
message. -/
theorem isTransientError_table_witness :
    isTransientError (.axiosErr (some 503) none "Service Unavailable") = true
    ∧ isTransientError (.axiosErr (some 429) none "Too Many Requests") = true
    ∧ isTransientError (.axiosErr (some 404) none "Not Found") = false
    ∧ isTransientError (.axiosErr (some 400) none
        "deadlock found when trying to get lock; try restarting transaction") = true
    ∧ isTransientError (.axiosErr (some 400) none "Invalid SKU") = false
    ∧ isTransientError (.axiosErr none none "network down") = true :=
  ⟨isTransientError_table.1 none "Service Unavailable",
   isTransientError_table.2.1 none "Too Many Requests",
   isTransientError_table.2.2.1 none "Not Found",
   isTransientError_table.2.2.2.1
     "deadlock found when trying to get lock; try restarting transaction" (by decide),
   isTransientError_table.2.2.2.2.1 "Invalid SKU" (by decide),
   isTransientError_table.2.2.2.2.2 none "network down"⟩

/-- Counterexample to claim C4: a plain thrown `Error` (not an axios error)
is classified permanent, not transient — `isTransientError` rejects every
non-axios value at its first line. -/
theorem isTransientError_plain_cex :
    isTransientError (.plain "boom") = false := by decide

/-- Claim C4 (amended): an error value that is not an HTTP-client (axios)
error is classified permanent (`false`); among axios errors, one carrying
no response status is classified transient (`true`). -/
theorem isTransientError_unknown_amended :
    (∀ msg : String, isTransientError (.plain msg) = false)
    ∧ (∀ (dm : Option String) (msg : String),
        isTransientError (.axiosErr none dm msg) = true) :=
  ⟨fun _ => rfl, fun dm msg => by simp [isTransientError]⟩

/-- Claim C6: the retry delay `30 * 2 ^ (attempt - 1)` used by
`runJobWithRetry` is monotonically non-decreasing in the attempt number on
the claimed domain `1 ≤ a1 ≤ a2`. -/
theorem backoffDelay_monotone (a1 a2 : Nat) (_h1 : 1 ≤ a1) (h12 : a1 ≤ a2) :
    backoffDelay a1 ≤ backoffDelay a2
    ∧ backoffDelay a1 = 30 * 2 ^ (a1 - 1) := by
  refine ⟨?_, rfl⟩
  unfold backoffDelay
  exact Nat.mul_le_mul_left 30
    (Nat.pow_le_pow_right (by norm_num) (Nat.sub_le_sub_right h12 1))

/-- Witness for C6 at `a1 = 2`, `a2 = 5`. -/
theorem backoffDelay_monotone_witness :
    (1 ≤ 2 ∧ (2 : Nat) ≤ 5)
    ∧ (backoffDelay 2 ≤ backoffDelay 5 ∧ backoffDelay 2 = 30 * 2 ^ (2 - 1)) :=
  ⟨⟨by decide, by decide⟩, backoffDelay_monotone 2 5 (by decide) (by decide)⟩

/-- Counterexample to claim C2 as stated: a claimed job with
`max_attempts = 0` and `attempts = 1` satisfies `attempts >= max_attempts`,
and its handler throws a transient error, yet `runJobWithRetry` schedules a
RETRY instead of the FAILED the claim requires — the code compares against
`job.max_attempts || 5`, so a zero ceiling is replaced by the default 5. -/
theorem runJobWithRetry_maxzero_cex :
    (isTransientError (.axiosErr (some 503) none "x") = true
     ∧ (1 : Nat) ≥ 0
     ∧ runJobWithRetry
         { id := 1, type := "SYNC_ORDER_TO_MAGENTO", payload := 1,
           status := .RUNNING, attempts := 1, max_attempts := 0,
           last_error := none, next_run_at := none }
         (.err (.axiosErr (some 503) none "x"))
         = .retry "x" 30) := by decide

/-- Claim C2 (amended): `runJobWithRetry` yields exactly one of three
outcomes, with the retry ceiling being `max_attempts` when it is nonzero
and the default 5 when it is zero (`job.max_attempts || 5`): success marks
the job DONE with `last_error` cleared; a non-transient error marks it
FAILED with the error message; a transient error at or above the ceiling
marks it FAILED; a transient error below the ceiling marks it RETRY with
the message and `next_run_at = now + backoff`. -/
theorem runJobWithRetry_spec (j dbj : JobRow) (now : Nat) (r : HandlerResult) :
    (r = .ok →
      runJobWithRetry j r = .done
      ∧ applyUpdate now dbj .done = { dbj with status := .DONE, last_error := none })
    ∧ (∀ e, r = .err e → isTransientError e = false →
      runJobWithRetry j r = .failed (errMessage e)
      ∧ applyUpdate now dbj (.failed (errMessage e))
          = { dbj with status := .FAILED, last_error := some (errMessage e) })
    ∧ (∀ e, r = .err e → isTransientError e = true →
      j.attempts ≥ (if j.max_attempts = 0 then 5 else j.max_attempts) →
      runJobWithRetry j r = .failed (errMessage e))
    ∧ (∀ e, r = .err e → isTransientError e = true →
      j.attempts < (if j.max_attempts = 0 then 5 else j.max_attempts) →
      runJobWithRetry j r = .retry (errMessage e) (backoffDelay j.attempts)
      ∧ applyUpdate now dbj (.retry (errMessage e) (backoffDelay j.attempts))
          = { dbj with status := .RETRY, last_error := some (errMessage e),
                       next_run_at := some (now + backoffDelay j.attempts) }) := by
  refine ⟨fun hr => ?_, fun e hr ht => ?_, fun e hr ht hge => ?_, fun e hr ht hlt => ?_⟩
  · subst hr
    exact ⟨rfl, rfl⟩
  · subst hr
    refine ⟨?_, rfl⟩
    simp [runJobWithRetry, ht]
  · subst hr
    have : (if j.max_attempts == 0 then 5 else j.max_attempts)
        = (if j.max_attempts = 0 then 5 else j.max_attempts) := by
      by_cases h0 : j.max_attempts = 0 <;> simp [h0]
    simp [runJobWithRetry, ht, this, hge]
  · subst hr
    have hiff : (if j.max_attempts == 0 then 5 else j.max_attempts)
        = (if j.max_attempts = 0 then 5 else j.max_attempts) := by
      by_cases h0 : j.max_attempts = 0 <;> simp [h0]
    refine ⟨?_, rfl⟩
    simp [runJobWithRetry, ht, hiff, Nat.not_le.mpr hlt]

/-- Witness for C2 (amended), exercising all four outcomes on concrete
jobs and errors. -/
theorem runJobWithRetry_spec_witness :
    (runJobWithRetry
        { id := 1, type := "T", payload := 1, status := .RUNNING, attempts := 1,
          max_attempts := 3, last_error := none, next_run_at := none }
        .ok = .done
      ∧ applyUpdate 9
          { id := 1, type := "T", payload := 1, status := .RUNNING, attempts := 1,
            max_attempts := 3, last_error := some "old", next_run_at := none }
          .done
        = { id := 1, type := "T", payload := 1, status := .DONE, attempts := 1,
            max_attempts := 3, last_error := none, next_run_at := none })
    ∧ runJobWithRetry
        { id := 1, type := "T", payload := 1, status := .RUNNING, attempts := 1,
          max_attempts := 3, last_error := none, next_run_at := none }
        (.err (.plain "bad request")) = .failed "bad request"
    ∧ runJobWithRetry
        { id := 1, type := "T", payload := 1, status := .RUNNING, attempts := 3,
          max_attempts := 3, last_error := none, next_run_at := none }
        (.err (.axiosErr (some 503) none "down")) = .failed "down"
    ∧ runJobWithRetry
        { id := 1, type := "T", payload := 1, status := .RUNNING, attempts := 2,
          max_attempts := 3, last_error := none, next_run_at := none }
        (.err (.axiosErr (some 503) none "down")) = .retry "down" 60 :=
  ⟨(runJobWithRetry_spec
      { id := 1, type := "T", payload := 1, status := .RUNNING, attempts := 1,
        max_attempts := 3, last_error := none, next_run_at := none }
      { id := 1, type := "T", payload := 1, status := .RUNNING, attempts := 1,
        max_attempts := 3, last_error := some "old", next_run_at := none }
      9 .ok).1 rfl,
   ((runJobWithRetry_spec
      { id := 1, type := "T", payload := 1, status := .RUNNING, attempts := 1,
        max_attempts := 3, last_error := none, next_run_at := none }
      { id := 1, type := "T", payload := 1, status := .RUNNING, attempts := 1,
        max_attempts := 3, last_error := none, next_run_at := none }
      9 (.err (.plain "bad request"))).2.1 (.plain "bad request") rfl (by decide)).1,
   (runJobWithRetry_spec
      { id := 1, type := "T", payload := 1, status := .RUNNING, attempts := 3,
        max_attempts := 3, last_error := none, next_run_at := none }
      { id := 1, type := "T", payload := 1, status := .RUNNING, attempts := 3,
        max_attempts := 3, last_error := none, next_run_at := none }
      9 (.err (.axiosErr (some 503) none "down"))).2.2.1
      (.axiosErr (some 503) none "down") rfl (by decide) (by decide),
   ((runJobWithRetry_spec
      { id := 1, type := "T", payload := 1, status := .RUNNING, attempts := 2,
        max_attempts := 3, last_error := none, next_run_at := none }
      { id := 1, type := "T", payload := 1, status := .RUNNING, attempts := 2,
        max_attempts := 3, last_error := none, next_run_at := none }
      9 (.err (.axiosErr (some 503) none "down"))).2.2.2
      (.axiosErr (some 503) none "down") rfl (by decide) (by decide)).1⟩

instance : IsTotal JobRow (fun a b => a.id ≤ b.id) :=
  ⟨fun a b => Nat.le_total a.id b.id⟩

instance : IsTrans JobRow (fun a b => a.id ≤ b.id) :=
  ⟨fun _ _ _ => Nat.le_trans⟩

/-- Claim C1: on a jobs table with distinct ids, `getDueJobs` selects at
most `limit` jobs — exactly `min limit (number of due jobs)` — all of them
rows of the table satisfying the due predicate (status PENDING/RETRY and
`next_run_at` null or ≤ now), in strictly ascending id order; each selected
job is returned as its post-update snapshot (status RUNNING, attempts + 1)
and the table is updated on exactly the selected ids; when no job
qualifies, the empty list is returned. -/
theorem getDueJobs_spec (tbl : List JobRow) (now limit : Nat)
    (hids : (tbl.map JobRow.id).Nodup) :
    ∃ sel : List JobRow,
      (getDueJobs tbl now limit).1 = sel.map claimJob
      ∧ sel.length = min limit (tbl.filter (isDue now)).length
      ∧ (∀ r ∈ sel, r ∈ tbl ∧ isDue now r = true)
      ∧ sel.Pairwise (fun a b => a.id < b.id)
      ∧ (∀ r ∈ sel, claimJob r
          = { r with status := .RUNNING, attempts := r.attempts + 1 })
      ∧ (getDueJobs tbl now limit).2
          = tbl.map (fun j =>
              if (sel.map (fun r => r.id)).contains j.id then claimJob j else j)
      ∧ (tbl.filter (isDue now) = [] → (getDueJobs tbl now limit).1 = []) := by
  refine ⟨(List.insertionSort (fun a b : JobRow => a.id ≤ b.id)
            (tbl.filter (isDue now))).take limit, rfl, ?_, ?_, ?_, fun r _ => rfl, rfl, ?_⟩
  · simp [List.length_take,
      (List.perm_insertionSort (fun a b : JobRow => a.id ≤ b.id)
        (tbl.filter (isDue now))).length_eq]
  · intro r hr
    have hmem : r ∈ List.insertionSort (fun a b : JobRow => a.id ≤ b.id)
        (tbl.filter (isDue now)) :=
      (List.take_sublist _ _).mem hr
    have hfil : r ∈ tbl.filter (isDue now) :=
      (List.perm_insertionSort _ _).mem_iff.mp hmem
    exact ⟨(List.mem_filter.mp hfil).1, (List.mem_filter.mp hfil).2⟩
  · have hsorted : (List.insertionSort (fun a b : JobRow => a.id ≤ b.id)
        (tbl.filter (isDue now))).Pairwise (fun a b => a.id ≤ b.id) :=
      List.sorted_insertionSort (fun a b : JobRow => a.id ≤ b.id) (tbl.filter (isDue now))
    have hle := List.Pairwise.sublist (List.take_sublist limit _) hsorted
    have h2 : ((tbl.filter (isDue now)).map JobRow.id).Sublist (tbl.map JobRow.id) :=
      (List.filter_sublist tbl).map JobRow.id
    have h3 : ((tbl.filter (isDue now)).map JobRow.id).Nodup := h2.nodup hids
    have hpm : ((List.insertionSort (fun a b : JobRow => a.id ≤ b.id)
        (tbl.filter (isDue now))).map JobRow.id).Perm
        ((tbl.filter (isDue now)).map JobRow.id) :=
      (List.perm_insertionSort _ _).map JobRow.id
    have h4 : ((List.insertionSort (fun a b : JobRow => a.id ≤ b.id)
        (tbl.filter (isDue now))).map JobRow.id).Nodup := hpm.symm.nodup h3
    have h5 : (((List.insertionSort (fun a b : JobRow => a.id ≤ b.id)
        (tbl.filter (isDue now))).take limit).map JobRow.id).Nodup :=
      ((List.take_sublist limit _).map JobRow.id).nodup h4
    rw [List.Nodup, List.pairwise_map] at h5
    exact (hle.and h5).imp (fun h => lt_of_le_of_ne h.1 h.2)
  · intro h0
    simp [getDueJobs, h0]

/-- Witness for C1 on a three-row table (one due RETRY, one due PENDING,
one terminal DONE) at instant 100 with limit 20. -/
theorem getDueJobs_spec_witness :
    (([{ id := 2, type := "T", payload := 2, status := .PENDING, attempts := 0,
         max_attempts := 3, last_error := none, next_run_at := none },
       { id := 1, type := "T", payload := 1, status := .RETRY, attempts := 1,
         max_attempts := 3, last_error := none, next_run_at := some 50 },
       { id := 3, type := "T", payload := 3, status := .DONE, attempts := 1,
         max_attempts := 3, last_error := none, next_run_at := none }].map JobRow.id).Nodup)
    ∧ (∃ sel : List JobRow,
        (getDueJobs
          [{ id := 2, type := "T", payload := 2, status := .PENDING, attempts := 0,
             max_attempts := 3, last_error := none, next_run_at := none },
           { id := 1, type := "T", payload := 1, status := .RETRY, attempts := 1,
             max_attempts := 3, last_error := none, next_run_at := some 50 },
           { id := 3, type := "T", payload := 3, status := .DONE, attempts := 1,
             max_attempts := 3, last_error := none, next_run_at := none }] 100 20).1
          = sel.map claimJob
        ∧ sel.length = min 20
            ([{ id := 2, type := "T", payload := 2, status := .PENDING, attempts := 0,
                max_attempts := 3, last_error := none, next_run_at := none },
              { id := 1, type := "T", payload := 1, status := .RETRY, attempts := 1,
                max_attempts := 3, last_error := none, next_run_at := some 50 },
              { id := 3, type := "T", payload := 3, status := .DONE, attempts := 1,
                max_attempts := 3, last_error := none, next_run_at := none }].filter
              (isDue 100)).length
        ∧ (∀ r ∈ sel,
            r ∈ [{ id := 2, type := "T", payload := 2, status := .PENDING, attempts := 0,
                   max_attempts := 3, last_error := none, next_run_at := none },
                 { id := 1, type := "T", payload := 1, status := .RETRY, attempts := 1,
                   max_attempts := 3, last_error := none, next_run_at := some 50 },
                 { id := 3, type := "T", payload := 3, status := .DONE, attempts := 1,
                   max_attempts := 3, last_error := none, next_run_at := none }]
            ∧ isDue 100 r = true)
        ∧ sel.Pairwise (fun a b => a.id < b.id)
        ∧ (∀ r ∈ sel, claimJob r
            = { r with status := .RUNNING, attempts := r.attempts + 1 })
        ∧ (getDueJobs
            [{ id := 2, type := "T", payload := 2, status := .PENDING, attempts := 0,
               max_attempts := 3, last_error := none, next_run_at := none },
             { id := 1, type := "T", payload := 1, status := .RETRY, attempts := 1,
               max_attempts := 3, last_error := none, next_run_at := some 50 },
             { id := 3, type := "T", payload := 3, status := .DONE, attempts := 1,
               max_attempts := 3, last_error := none, next_run_at := none }] 100 20).2
            = [{ id := 2, type := "T", payload := 2, status := .PENDING, attempts := 0,
                 max_attempts := 3, last_error := none, next_run_at := none },
               { id := 1, type := "T", payload := 1, status := .RETRY, attempts := 1,
                 max_attempts := 3, last_error := none, next_run_at := some 50 },
               { id := 3, type := "T", payload := 3, status := .DONE, attempts := 1,
                 max_attempts := 3, last_error := none, next_run_at := none }].map
                (fun j => if (sel.map (fun r => r.id)).contains j.id then claimJob j else j)
        ∧ ([{ id := 2, type := "T", payload := 2, status := .PENDING, attempts := 0,
              max_attempts := 3, last_error := none, next_run_at := none },
            { id := 1, type := "T", payload := 1, status := .RETRY, attempts := 1,
              max_attempts := 3, last_error := none, next_run_at := some 50 },
            { id := 3, type := "T", payload := 3, status := .DONE, attempts := 1,
              max_attempts := 3, last_error := none, next_run_at := none }].filter
            (isDue 100) = []
          → (getDueJobs
              [{ id := 2, type := "T", payload := 2, status := .PENDING, attempts := 0,
                 max_attempts := 3, last_error := none, next_run_at := none },
               { id := 1, type := "T", payload := 1, status := .RETRY, attempts := 1,
                 max_attempts := 3, last_error := none, next_run_at := some 50 },
               { id := 3, type := "T", payload := 3, status := .DONE, attempts := 1,
                 max_attempts := 3, last_error := none, next_run_at := none }] 100 20).1
              = [])) :=
  ⟨by decide,
   getDueJobs_spec
     [{ id := 2, type := "T", payload := 2, status := .PENDING, attempts := 0,
        max_attempts := 3, last_error := none, next_run_at := none },
      { id := 1, type := "T", payload := 1, status := .RETRY, attempts := 1,
        max_attempts := 3, last_error := none, next_run_at := some 50 },
      { id := 3, type := "T", payload := 3, status := .DONE, attempts := 1,
        max_attempts := 3, last_error := none, next_run_at := none }] 100 20 (by decide)⟩

/-- Scenario job for the retry-exhaustion run: fresh PENDING job with
`max_attempts = 3`. -/
def exhJob : JobRow :=
  { id := 1, type := "SYNC_ORDER_TO_MAGENTO", payload := 7, status := .PENDING,
    attempts := 0, max_attempts := 3, last_error := none, next_run_at := none }

/-- The transient failure thrown on every execution in the scenario. -/
def exhError : JsError := .axiosErr (some 503) none "service unavailable"

/-- A handler that throws `exhError` on every invocation. -/
def exhHandler : JobRow → HandlerResult := fun _ => .err exhError

/-- Table after the worker cycle at instant 0. -/
def exhTbl1 : List JobRow := workerCycle 0 20 exhHandler [exhJob]

/-- Table after the worker cycle at instant 1000. -/
def exhTbl2 : List JobRow := workerCycle 1000 20 exhHandler exhTbl1

/-- Table after the worker cycle at instant 10000. -/
def exhTbl3 : List JobRow := workerCycle 10000 20 exhHandler exhTbl2

/-- Expected row after the first cycle: RETRY, one attempt, 30s backoff. -/
def exhRow1 : JobRow :=
  { exhJob with
    status := .RETRY
    attempts := 1
    last_error := some "service unavailable"
    next_run_at := some 30 }

/-- Expected row after the second cycle: RETRY, two attempts, 60s backoff
from instant 1000. -/
def exhRow2 : JobRow :=
  { exhJob with
    status := .RETRY
    attempts := 2
    last_error := some "service unavailable"
    next_run_at := some 1060 }

/-- Expected row after the third cycle: FAILED at `attempts = 3 =
max_attempts`. -/
def exhRow3 : JobRow :=
  { exhJob with
    status := .FAILED
    attempts := 3
    last_error := some "service unavailable"
    next_run_at := some 1060 }

/-- Claim C5: a job with `max_attempts = 3` whose handler always throws a
transient error is claimed exactly three times: the first two cycles leave
it RETRY with attempts 1 and 2 (and backed-off `next_run_at`), the third
leaves it FAILED with attempts 3, and a FAILED job is never selected by
`getDueJobs` at any later instant, so no fourth claim occurs. -/
theorem retry_exhaustion_scenario :
    isTransientError exhError = true
    ∧ (getDueJobs [exhJob] 0 20).1.length = 1
    ∧ exhTbl1 = [exhRow1]
    ∧ (getDueJobs exhTbl1 1000 20).1.length = 1
    ∧ exhTbl2 = [exhRow2]
    ∧ (getDueJobs exhTbl2 10000 20).1.length = 1
    ∧ exhTbl3 = [exhRow3]
    ∧ (∀ t : Nat, (getDueJobs exhTbl3 t 20).1 = []) := by
  refine ⟨by decide, by decide, by decide, by decide, by decide, by decide, by decide, ?_⟩
  intro t
  have h3 : exhTbl3 = [exhRow3] := by decide
  rw [h3]
  simp [getDueJobs, isDue, exhRow3, exhJob]

/-- Claim C7: `ensureJob` (hence the three `create*JobIfNotExists` facades)
is idempotent per `(type, order_id)`: a non-terminal match (PENDING,
RUNNING, RETRY) leaves the table untouched; a terminal match (DONE, FAILED)
is reset in place to PENDING with `attempts = 0`, `last_error = null`,
`next_run_at = null` without growing the table; only with no match is a
fresh PENDING row appended. -/
theorem ensureJob_idempotent (tbl : List JobRow) (ty : String) (oid nid : Nat) :
    (∀ e, findJob tbl ty oid = some e →
      (e.status = .PENDING ∨ e.status = .RUNNING ∨ e.status = .RETRY) →
      ensureJob tbl ty oid nid = tbl)
    ∧ (∀ e, findJob tbl ty oid = some e →
      (e.status = .DONE ∨ e.status = .FAILED) →
      ensureJob tbl ty oid nid
        = tbl.map (fun j => if j.id == e.id then resetJob j else j)
      ∧ (ensureJob tbl ty oid nid).length = tbl.length)
    ∧ (findJob tbl ty oid = none →
      ensureJob tbl ty oid nid = tbl ++ [freshJob ty oid nid]) := by
  refine ⟨fun e he hst => ?_, fun e he hst => ?_, fun hn => ?_⟩
  · unfold ensureJob
    rw [he]
    rcases hst with h | h | h <;> simp [h]
  · unfold ensureJob
    rw [he]
    rcases hst with h | h <;> simp [h, List.length_map]
  · unfold ensureJob
    rw [hn]

/-- Witness for C7: the three branches exercised on one-row tables and the
empty table. -/
theorem ensureJob_idempotent_witness :
    ensureJob
      [{ id := 4, type := "T", payload := 7, status := .PENDING, attempts := 0,
         max_attempts := 5, last_error := none, next_run_at := none }] "T" 7 9
      = [{ id := 4, type := "T", payload := 7, status := .PENDING, attempts := 0,
           max_attempts := 5, last_error := none, next_run_at := none }]
    ∧ (ensureJob
        [{ id := 4, type := "T", payload := 7, status := .FAILED, attempts := 5,
           max_attempts := 5, last_error := some "boom", next_run_at := some 3 }] "T" 7 9
        = [{ id := 4, type := "T", payload := 7, status := .FAILED, attempts := 5,
             max_attempts := 5, last_error := some "boom", next_run_at := some 3 }].map
          (fun j => if j.id == 4 then resetJob j else j)
      ∧ (ensureJob
          [{ id := 4, type := "T", payload := 7, status := .FAILED, attempts := 5,
             max_attempts := 5, last_error := some "boom", next_run_at := some 3 }] "T" 7 9).length
        = 1)
    ∧ ensureJob [] "T" 7 9 = [] ++ [freshJob "T" 7 9] :=
  ⟨(ensureJob_idempotent
      [{ id := 4, type := "T", payload := 7, status := .PENDING, attempts := 0,
         max_attempts := 5, last_error := none, next_run_at := none }] "T" 7 9).1
      { id := 4, type := "T", payload := 7, status := .PENDING, attempts := 0,
        max_attempts := 5, last_error := none, next_run_at := none }
      (by decide) (by decide),
   (ensureJob_idempotent
      [{ id := 4, type := "T", payload := 7, status := .FAILED, attempts := 5,
         max_attempts := 5, last_error := some "boom", next_run_at := some 3 }] "T" 7 9).2.1
      { id := 4, type := "T", payload := 7, status := .FAILED, attempts := 5,
        max_attempts := 5, last_error := some "boom", next_run_at := some 3 }
      (by decide) (by decide),
   (ensureJob_idempotent [] "T" 7 9).2.2 (by decide)⟩

/-! ## Running the handlers symbolically -/

theorem bind_eq {α β : Type} (x : M α) (f : α → M β) : x >>= f = mBind x f := rfl

theorem pure_eq {α : Type} (a : α) : (pure a : M α) = mPure a := rfl

/-- Claim C8: on an order that already carries a `magento_order_id`,
`syncOrderById` returns successfully right after the guard and the world is
bit-for-bit unchanged: no remote call is logged, no order row, job row or
counter is written. -/
theorem syncOrderById_already_synced (w : World) (env : Env) (oid : Nat)
    (ord : OrderRow) (mid : Nat)
    (hfind : w.orders.find? (fun o => o.id == oid) = some ord)
    (hmid : ord.magento_order_id = some mid) :
    syncOrderById env oid w = MRes.ok () w := by
  simp [syncOrderById, bind_eq, mBind, readOrder, readItems, hfind, hmid, pure_eq, mPure]

/-- Concrete already-synced order for the C8 witness. -/
def c8Order : OrderRow :=
  { id := 1, order_channel := "Order on Behalf", email := some "a@b.example",
    created_date := 10, magento_order_id := some 77,
    magento_increment_id := some "100000077", status := "SYNCED",
    invoiced_at := none, shipped_at := none, magento_invoice_id := none,
    magento_shipment_id := none }

/-- Concrete world for the C8 witness. -/
def c8World : World :=
  { orders := [c8Order],
    orderItems := [{ id := 1, order_id := 1, sku := "SKU-1", qty_ordered := 2 }],
    jobs := [], nextJobId := 1, calls := [] }

/-- Environment for the C8 witness; every remote outcome is irrelevant
because the guard fires first. -/
def c8Env : Env :=
  { createGuestCart := .ok "cart-1",
    addItemToGuestCart := fun _ _ _ => .ok (),
    setGuestCartAddresses := .ok (), setPaymentMethodCOD := .ok (),
    placeGuestOrder := .ok 77, getOrderById := .ok (some "100000077"),
    attachCustomerAndBackdate := .ok (), backdateOrder := .ok (),
    addOrderComment := .ok (), createInvoice := .ok 5,
    backdateInvoice := .ok (),
    createShipment := .ok 1, backdateShipment := .ok (),
    resolveChannelRule := .ok { autoInvoice := true, autoShip := false },
    refetchOrderOk := .ok (), enqueueShipOk := .ok () }

/-- Witness for C8: the guard fires on `c8World` and the world is returned
unchanged. -/
theorem syncOrderById_already_synced_witness :
    (c8World.orders.find? (fun o => o.id == 1) = some c8Order
      ∧ c8Order.magento_order_id = some 77)
    ∧ syncOrderById c8Env 1 c8World = MRes.ok () c8World :=
  ⟨⟨by decide, by decide⟩,
   syncOrderById_already_synced c8World c8Env 1 c8Order 77 (by decide) (by decide)⟩

/-- An `updateOrder`-style write that preserves ids moves `find?` through
the map. -/
theorem find?_update :
    ∀ (orders : List OrderRow) (oid : Nat) (f : OrderRow → OrderRow),
    (∀ o, (f o).id = o.id) →
    (orders.map (fun o => if o.id == oid then f o else o)).find? (fun o => o.id == oid)
      = (orders.find? (fun o => o.id == oid)).map f
  | [], _, _, _ => rfl
  | o :: rest, oid, f, hf => by
    by_cases h : o.id = oid
    · have hb : (o.id == oid) = true := by simp [h]
      have hb2 : ((f o).id == oid) = true := by simp [hf o, h]
      have hgo : (if o.id == oid then f o else o) = f o := by simp [hb]
      simp only [List.map_cons, hgo]
      rw [@List.find?_cons_of_pos OrderRow (fun o => o.id == oid) (f o) _ hb2,
        @List.find?_cons_of_pos OrderRow (fun o => o.id == oid) o _ hb]
      rfl
    · have hb : (o.id == oid) = false := by simp [h]
      have hbn : ¬(o.id == oid) = true := by simp [hb]
      have hgo : (if o.id == oid then f o else o) = o := by simp [hb]
      simp only [List.map_cons, hgo]
      rw [@List.find?_cons_of_neg OrderRow (fun o => o.id == oid) o _ hbn,
        @List.find?_cons_of_neg OrderRow (fun o => o.id == oid) o _ hbn]
      exact find?_update rest oid f hf

/-- Adding a list of items whose remote calls all succeed returns normally
and only extends the call log. -/
theorem addItemsToCart_ok (env : Env) (cid : String) :
    ∀ (items : List OrderItemRow) (w : World),
    (∀ it ∈ items, env.addItemToGuestCart cid it.sku it.qty_ordered = Except.ok ()) →
    ∃ w2, addItemsToCart env cid items w = MRes.ok () w2
      ∧ w2.orders = w.orders ∧ w2.orderItems = w.orderItems
      ∧ w2.jobs = w.jobs ∧ w2.nextJobId = w.nextJobId
  | [], w, _ => ⟨w, rfl, rfl, rfl, rfl, rfl⟩
  | it :: rest, w, h => by
    have hit : env.addItemToGuestCart cid it.sku it.qty_ordered = Except.ok () :=
      h it (List.mem_cons_self it rest)
    obtain ⟨w2, hrun, ho, hoi, hj, hn⟩ :=
      addItemsToCart_ok env cid rest
        { w with calls := w.calls ++ ["addItemToGuestCart"] }
        (fun x hx => h x (List.mem_cons_of_mem it hx))
    refine ⟨w2, ?_, ho, hoi, hj, hn⟩
    simp [addItemsToCart, bind_eq, mBind, mcall, hit, hrun]

/-- A remote call whose environment outcome is a success, in closed form. -/
theorem mcall_ok {α : Type} (n : String) (a : α) (w : World) :
    mcall n (Except.ok a) w = MRes.ok a { w with calls := w.calls ++ [n] } := rfl

/-- A try/catch-wrapped remote call returns normally for every outcome of
the call: the result is the call's value on success and the fallback on a
throw, and in both cases only the call log grows. This is the shape of
every non-fatal side-effect step in the handlers. -/
theorem mTry_mcall {α : Type} (n : String) (r : Except JsError α) (d : α) (w : World) :
    mTry (mcall n r) (fun _ => mPure d) w
      = MRes.ok (match r with | .ok a => a | .error _ => d)
          { w with calls := w.calls ++ [n] } := by
  cases r <;> rfl

/-- Claim C9: in every handler whose core action succeeds, the non-fatal
side-effect steps do not affect the outcome, whatever they do. The theorem
places no hypothesis on the side-effect outcomes, so each of them may
independently succeed or throw. For `syncOrderById`: with cart creation,
item adds, addresses, payment and order placement succeeding, and the
increment-id fetch, attach-customer/backdate (or guest backdate) and
order-comment calls having arbitrary outcomes, the handler returns
normally and the persisted order keeps `magento_order_id` and status
SYNCED. For `invoiceOrderById`: with invoice creation succeeding and the
backdate-invoice call arbitrary, `invoiced_at` / `magento_invoice_id` are
persisted and the handler returns normally. For `shipOrderById`: with
shipment creation succeeding and the backdate-shipment call arbitrary,
`shipped_at` / `magento_shipment_id` are persisted and the handler returns
normally. A normal handler return makes `runJobWithRetry` mark the job
DONE, so no side-effect failure marks the job FAILED or RETRY. -/
theorem side_effect_failures_nonfatal :
    (∀ (w : World) (env : Env) (oid : Nat) (ord : OrderRow) (cid : String)
       (mid : Nat) (rule : ChannelRule),
      w.orders.find? (fun o => o.id == oid) = some ord →
      ord.magento_order_id = none →
      env.createGuestCart = .ok cid →
      (∀ it ∈ w.orderItems.filter (fun it => it.order_id == oid),
        env.addItemToGuestCart cid it.sku it.qty_ordered = .ok ()) →
      env.setGuestCartAddresses = .ok () →
      env.setPaymentMethodCOD = .ok () →
      env.placeGuestOrder = .ok mid →
      env.resolveChannelRule = .ok rule →
      ∃ w2, syncOrderById env oid w = MRes.ok () w2
        ∧ ∃ o2, w2.orders.find? (fun o => o.id == oid) = some o2
          ∧ o2.magento_order_id = some mid ∧ o2.status = "SYNCED")
    ∧ (∀ (w : World) (env : Env) (oid now : Nat) (ord : OrderRow) (mid inv : Nat)
        (rule : ChannelRule),
      w.orders.find? (fun o => o.id == oid) = some ord →
      ord.magento_order_id = some mid →
      ord.invoiced_at = none →
      env.createInvoice = .ok inv →
      env.refetchOrderOk = .ok () →
      env.resolveChannelRule = .ok rule →
      env.enqueueShipOk = .ok () →
      ∃ w2, invoiceOrderById env oid now w = MRes.ok () w2
        ∧ ∃ o2, w2.orders.find? (fun o => o.id == oid) = some o2
          ∧ o2.invoiced_at = some now ∧ o2.magento_invoice_id = some inv)
    ∧ (∀ (w : World) (env : Env) (oid now : Nat) (ord : OrderRow) (mid ship : Nat),
      w.orders.find? (fun o => o.id == oid) = some ord →
      ord.magento_order_id = some mid →
      ord.shipped_at = none →
      env.createShipment = .ok ship →
      ∃ w2, shipOrderById env oid now w = MRes.ok () w2
        ∧ ∃ o2, w2.orders.find? (fun o => o.id == oid) = some o2
          ∧ o2.shipped_at = some now ∧ o2.magento_shipment_id = some ship)
    ∧ (∀ j : JobRow, runJobWithRetry j HandlerResult.ok = JobUpdate.done) := by
  refine ⟨?_, ?_, ?_, fun j => rfl⟩
  · intro w env oid ord cid mid rule hfind hmid hcc hitems haddr hpay hplace hrule
    have hfu : ∀ inc2 : Option String,
        List.find? (fun o => o.id == oid)
          (List.map (fun o => if o.id == oid then { o with status := "SYNCED", magento_order_id := some mid, magento_increment_id := inc2 } else o) w.orders)
        = some { ord with status := "SYNCED", magento_order_id := some mid, magento_increment_id := inc2 } := by
      intro inc2
      rw [find?_update w.orders oid (fun o => { o with status := "SYNCED", magento_order_id := some mid, magento_increment_id := inc2 }) (fun o => rfl), hfind]
      rfl
    cases hem : ord.email
    all_goals
      simp only [syncOrderById, bind_eq, mBind, readOrder, readItems, hfind, hmid, hem,
        Option.isSome_none, Option.isSome_some, Bool.false_eq_true, if_false, if_true,
        mcall_ok, mTry_mcall, mPure, liftE, updateOrder, ensureJobM, pure_eq,
        hcc, haddr, hpay, hplace, hrule]
    all_goals
      obtain ⟨w2, hrun, ho, hoi, hj, hn⟩ :=
        addItemsToCart_ok env cid (w.orderItems.filter (fun it => it.order_id == oid))
          { orders := w.orders, orderItems := w.orderItems, jobs := w.jobs,
            nextJobId := w.nextJobId, calls := w.calls ++ ["createGuestCart"] } hitems
      rw [hrun]
      have ho2 : w2.orders = w.orders := ho
      cases har : rule.autoInvoice
      all_goals
        simp only [har, Bool.false_eq_true, if_false, if_true, pure_eq, mPure, ensureJobM, ho2]
        refine ⟨_, rfl, ?_⟩
        simp only [hfu]
        exact ⟨_, rfl, rfl, rfl⟩
  · intro w env oid now ord mid inv rule hfind hmid hinv hci hre hrule hes
    have hfu := find?_update w.orders oid
      (fun o => { o with magento_invoice_id := some inv, invoiced_at := some now })
      (fun o => rfl)
    rw [hfind] at hfu
    cases hships : rule.autoShip
    all_goals
      simp only [invoiceOrderById, bind_eq, mBind, readOrder, hfind, hmid, hinv,
        Option.isSome_none, Option.isSome_some, Bool.false_eq_true, if_false, if_true,
        mcall_ok, mTry_mcall, mPure, liftE, updateOrder, ensureJobM, pure_eq,
        hci, hre, hrule, hes, hships, hfu, Option.map_some']
      simp only [mTry, mBind, liftE, readOrder, mPure, ensureJobM, pure_eq,
        Bool.false_eq_true, if_false, if_true, hships, hfu, Option.map_some']
      refine ⟨_, rfl, ?_⟩
      simp only [hfu, Option.map_some']
      exact ⟨_, rfl, rfl, rfl⟩
  · intro w env oid now ord mid ship hfind hmid hshipped hcs
    have hfu := find?_update w.orders oid
      (fun o => { o with magento_shipment_id := some ship, shipped_at := some now })
      (fun o => rfl)
    rw [hfind] at hfu
    simp only [shipOrderById, bind_eq, mBind, readOrder, hfind, hmid, hshipped,
      Option.isSome_none, Bool.false_eq_true, if_false,
      mcall_ok, mTry_mcall, mPure, updateOrder, pure_eq, hcs]
    refine ⟨_, rfl, ?_⟩
    simp only [hfu, Option.map_some']
    exact ⟨_, rfl, rfl, rfl⟩

/-- Unsynced order used by the C9 sync-side witness. -/
def c9Order : OrderRow :=
  { id := 2, order_channel := "Order on Behalf", email := none, created_date := 5,
    magento_order_id := none, magento_increment_id := none, status := "PENDING",
    invoiced_at := none, shipped_at := none, magento_invoice_id := none,
    magento_shipment_id := none }

/-- World for the C9 sync-side witness. -/
def c9World : World :=
  { orders := [c9Order], orderItems := [], jobs := [], nextJobId := 1, calls := [] }

/-- Synced-but-not-invoiced order used by the C9 invoice-side witness. -/
def c9InvOrder : OrderRow :=
  { id := 3, order_channel := "Order on Behalf", email := none, created_date := 5,
    magento_order_id := some 501, magento_increment_id := none, status := "SYNCED",
    invoiced_at := none, shipped_at := none, magento_invoice_id := none,
    magento_shipment_id := none }

/-- World for the C9 invoice-side witness. -/
def c9InvWorld : World :=
  { orders := [c9InvOrder], orderItems := [], jobs := [], nextJobId := 1, calls := [] }

/-- Environment for the C9 witness: the core remote operations succeed and
every side-effect step (attach/backdate, comment, invoice backdate)
throws. -/
def c9Env : Env :=
  { createGuestCart := .ok "c9cart",
    addItemToGuestCart := fun _ _ _ => .ok (),
    setGuestCartAddresses := .ok (), setPaymentMethodCOD := .ok (),
    placeGuestOrder := .ok 501, getOrderById := .ok (some "100000501"),
    attachCustomerAndBackdate := .error (.plain "backdate failed"),
    backdateOrder := .error (.plain "backdate failed"),
    addOrderComment := .error (.plain "comment failed"),
    createInvoice := .ok 61,
    backdateInvoice := .error (.plain "backdate invoice failed"),
    createShipment := .ok 81,
    backdateShipment := .error (.plain "backdate shipment failed"),
    resolveChannelRule := .ok { autoInvoice := true, autoShip := false },
    refetchOrderOk := .ok (), enqueueShipOk := .ok () }

/-- Witness for C9: all three handlers run on concrete worlds against an
environment whose side-effect steps (attach/backdate, comment, invoice
backdate, shipment backdate) all throw, and each still succeeds with its
core result persisted; a normal return maps to DONE. -/
theorem side_effect_failures_nonfatal_witness :
    (∃ w2, syncOrderById c9Env 2 c9World = MRes.ok () w2
      ∧ ∃ o2, w2.orders.find? (fun o => o.id == 2) = some o2
        ∧ o2.magento_order_id = some 501 ∧ o2.status = "SYNCED")
    ∧ (∃ w2, invoiceOrderById c9Env 3 90 c9InvWorld = MRes.ok () w2
      ∧ ∃ o2, w2.orders.find? (fun o => o.id == 3) = some o2
        ∧ o2.invoiced_at = some 90 ∧ o2.magento_invoice_id = some 61)
    ∧ (∃ w2, shipOrderById c9Env 3 95 c9InvWorld = MRes.ok () w2
      ∧ ∃ o2, w2.orders.find? (fun o => o.id == 3) = some o2
        ∧ o2.shipped_at = some 95 ∧ o2.magento_shipment_id = some 81)
    ∧ runJobWithRetry (freshJob "T" 1 1) HandlerResult.ok = JobUpdate.done :=
  ⟨side_effect_failures_nonfatal.1 c9World c9Env 2 c9Order "c9cart" 501
      { autoInvoice := true, autoShip := false }
      rfl rfl rfl (by simp [c9World]) rfl rfl rfl rfl,
   side_effect_failures_nonfatal.2.1 c9InvWorld c9Env 3 90 c9InvOrder 501 61
      { autoInvoice := true, autoShip := false }
      rfl rfl rfl rfl rfl rfl rfl,
   side_effect_failures_nonfatal.2.2.1 c9InvWorld c9Env 3 95 c9InvOrder 501 81
      rfl rfl rfl rfl,
   side_effect_failures_nonfatal.2.2.2 (freshJob "T" 1 1)⟩

/-- Claim C10: in `invoiceOrderById`, once the remote invoice is created
and `invoiced_at` persisted, a throw in the post-invoice scheduling block —
the order re-read, the channel-policy re-resolution, or the ship-job
enqueue — is caught inside the handler: it still returns normally (so the
invoice job is marked DONE), the jobs table is left untouched (no
`SHIP_MAGENTO_ORDER` job is enqueued, even when the resolved policy has
`autoShip = true`), and the persisted `invoiced_at` remains. -/
theorem invoice_ship_failure_caught
    (w : World) (env : Env) (oid now : Nat) (ord : OrderRow) (mid inv : Nat)
    (e : JsError)
    (hfind : w.orders.find? (fun o => o.id == oid) = some ord)
    (hmid : ord.magento_order_id = some mid)
    (hinv : ord.invoiced_at = none)
    (hci : env.createInvoice = .ok inv)
    (hbd : env.backdateInvoice = .ok ())
    (hthrow : env.refetchOrderOk = .error e
      ∨ (env.refetchOrderOk = .ok () ∧ env.resolveChannelRule = .error e)
      ∨ (env.refetchOrderOk = .ok ()
          ∧ (∃ rule, env.resolveChannelRule = .ok rule ∧ rule.autoShip = true)
          ∧ env.enqueueShipOk = .error e)) :
    ∃ w2, invoiceOrderById env oid now w = MRes.ok () w2
      ∧ w2.jobs = w.jobs
      ∧ ∃ o2, w2.orders.find? (fun o => o.id == oid) = some o2
        ∧ o2.invoiced_at = some now := by
  have hfu := find?_update w.orders oid
    (fun o => { o with magento_invoice_id := some inv, invoiced_at := some now })
    (fun o => rfl)
  rw [hfind] at hfu
  rcases hthrow with hre | ⟨hre, hrule⟩ | ⟨hre, ⟨rule, hrule, hships⟩, hes⟩
  all_goals
    simp only [invoiceOrderById, bind_eq, mBind, readOrder, hfind, hmid, hinv,
      Option.isSome_none, Option.isSome_some, Bool.false_eq_true, if_false, if_true,
      mcall, mTry, mPure, liftE, updateOrder, ensureJobM, pure_eq,
      hci, hbd, hre, hfu, Option.map_some']
  · refine ⟨_, rfl, rfl, ?_⟩
    simp only [hfu, Option.map_some']
    exact ⟨_, rfl, rfl⟩
  · simp only [hrule]
    refine ⟨_, rfl, rfl, ?_⟩
    simp only [hfu, Option.map_some']
    exact ⟨_, rfl, rfl⟩
  · simp only [hrule, hships, if_true, hes]
    refine ⟨_, rfl, rfl, ?_⟩
    simp only [hfu, Option.map_some']
    exact ⟨_, rfl, rfl⟩

/-- Synced, uninvoiced order for the C10 witness. -/
def c10Order : OrderRow :=
  { id := 5, order_channel := "Admin Bulk Digitisation", email := none,
    created_date := 5, magento_order_id := some 88, magento_increment_id := none,
    status := "SYNCED", invoiced_at := none, shipped_at := none,
    magento_invoice_id := none, magento_shipment_id := none }

/-- World for the C10 witness. -/
def c10World : World :=
  { orders := [c10Order], orderItems := [], jobs := [], nextJobId := 4, calls := [] }

/-- Environment for the C10 witness: invoice creation succeeds, the policy
resolves to `autoShip = true`, and the ship-job enqueue throws. -/
def c10Env : Env :=
  { createGuestCart := .ok "c10cart",
    addItemToGuestCart := fun _ _ _ => .ok (),
    setGuestCartAddresses := .ok (), setPaymentMethodCOD := .ok (),
    placeGuestOrder := .ok 88, getOrderById := .ok none,
    attachCustomerAndBackdate := .ok (), backdateOrder := .ok (),
    addOrderComment := .ok (), createInvoice := .ok 71,
    backdateInvoice := .ok (),
    createShipment := .ok 1, backdateShipment := .ok (),
    resolveChannelRule := .ok { autoInvoice := true, autoShip := true },
    refetchOrderOk := .ok (),
    enqueueShipOk := .error (.plain "insert failed") }

/-- Witness for C10: the enqueue of the successor ship job throws while
`autoShip = true`; the handler still succeeds, no job row appears, and
`invoiced_at` is persisted. -/
theorem invoice_ship_failure_caught_witness :
    ∃ w2, invoiceOrderById c10Env 5 77 c10World = MRes.ok () w2
      ∧ w2.jobs = c10World.jobs
      ∧ ∃ o2, w2.orders.find? (fun o => o.id == 5) = some o2
        ∧ o2.invoiced_at = some 77 :=
  invoice_ship_failure_caught c10World c10Env 5 77 c10Order 88 71
    (JsError.plain "insert failed") rfl rfl rfl rfl rfl
    (Or.inr (Or.inr ⟨rfl, ⟨{ autoInvoice := true, autoShip := true }, rfl, rfl⟩, rfl⟩))
